import Mathlib

/-!
Verification of the vanilla-slider carousel core.

The geometry helpers come from `src/util.js` (`diffCoords`, `originForIndex`,
`changeSlide`); the slider state machine comes from the `Slider` class
(`updateIndex`, the constructor, and the `handleTouchStart` /
`handleTouchMove` / `handleTouchEnd` event handlers).

JS numbers are modelled as rationals (`ℚ`), indices as integers (`ℤ`),
the slide count as a natural number.  DOM reads of
`getBoundingClientRect().width` are lifted to an explicit width parameter,
and the local constant `toleranceFr` (0.33 in `src/util.js`, 0.15 in the
second variant of the source) is lifted to a configuration parameter, as
the spec treats it ("a configuration constant in (0,1]").
-/

namespace VanillaSlider

/-- A pixel coordinate pair, the `[x, y]` arrays of the source. -/
structure Coords where
  x : ℚ
  y : ℚ
  deriving DecidableEq, Repr

/-- Source `diffCoords` of `src/util.js`:
`(a, b) => [(a[0] - b[0]) * -1, (a[1] - b[1]) * -1]`. -/
def diffCoords (a b : Coords) : Coords :=
  ⟨(a.x - b.x) * -1, (a.y - b.y) * -1⟩

/-- Source `originForIndex` of `src/util.js`: `0` for index `0`, otherwise
`-1 * totalWidth * n`; the DOM read of the parent element's width is the
`totalWidth` parameter. -/
def originForIndex (n : ℤ) (totalWidth : ℚ) : ℚ :=
  if n = 0 then 0 else -1 * totalWidth * n

/-- Source `changeSlide` of `src/util.js`: the advance/stay/retreat decision
at gesture end.  `totalWidth` is the DOM-read parent width and `toleranceFr`
the lifted tolerance constant (`0.33` in `src/util.js`). -/
def changeSlide (xDiff totalWidth toleranceFr : ℚ) : ℤ :=
  if xDiff = 0 then 0
  else
    let isNegative := xDiff < 0
    let tolerance := totalWidth * toleranceFr
    let overTolerance := tolerance - |xDiff| ≤ 0
    if ¬ overTolerance then 0
    else if isNegative then 1 else -1

/-- The `changeSlide` call exactly as `src/util.js` fixes it, tolerance
`0.33`. -/
def changeSlideUtil (xDiff totalWidth : ℚ) : ℤ :=
  changeSlide xDiff totalWidth (33 / 100)

/-- The fixed collaborators of one `Slider` instance: the container's child
elements (slides, identified by numeric ids), the DOM-read parent width, and
the tolerance fraction used by `changeSlide`. -/
structure SliderEnv where
  children : List ℕ
  parentWidth : ℚ
  toleranceFr : ℚ
  deriving DecidableEq, Repr

/-- The notifications the `Slider` emits (`this.emit(...)` in the source).
A slide element reference `this.el.children[n]` is `children[n]?` — `none`
models the `undefined` an out-of-range DOM access yields. -/
inductive SliderEvent where
  | init (element : Option ℕ) (index : ℤ)
  | change (index : ℤ) (element : Option ℕ)
  | touch (index : ℤ) (slides : List ℕ) (element : Option ℕ)
  deriving DecidableEq, Repr

/-- The mutable state of a `Slider` instance: `this.touchDown`, the
`this.state` record (`slidesCount`, `active`, `diffX`), the `touchOrigin`
closure variable of `_attachMoveEvents`, and `trackX`, the last horizontal
translation requested through `_translateSlide` (`0` before any request). -/
structure SliderState where
  touchDown : Bool
  slidesCount : ℕ
  active : ℤ
  diffX : ℚ
  touchOrigin : Coords
  trackX : ℚ
  deriving DecidableEq, Repr

/-- Source `updateIndex(n)`: returns unchanged when
`n < 0 || n >= slidesCount`, otherwise sets `state.active = n` and emits
`change {index: n, element: children[n]}`. -/
def updateIndex (env : SliderEnv) (s : SliderState) (n : ℤ) :
    SliderState × List SliderEvent :=
  if n < 0 ∨ (s.slidesCount : ℤ) ≤ n then (s, [])
  else ({ s with active := n }, [.change n env.children[n.toNat]?])

/-- The constructor body: state initialised with
`slidesCount = el.children.length`, `active = 0`, `diffX = 0`,
`touchDown = false`, `touchOrigin = [0, 0]`; then `updateIndex(0)` runs and
`init {element: el.children[0], index: 0}` is emitted.  CSS sizing and class
toggling are delegated side effects not modelled here. -/
def initSlider (env : SliderEnv) : SliderState × List SliderEvent :=
  let s0 : SliderState :=
    { touchDown := false
      slidesCount := env.children.length
      active := 0
      diffX := 0
      touchOrigin := ⟨0, 0⟩
      trackX := 0 }
  let r := updateIndex env s0 0
  (r.1, r.2 ++ [.init env.children[0]? 0])

/-- The construction failure channel a JS constructor has (a thrown
exception).  The source constructor performs no validation and never
throws, so `mkSlider` always returns `Except.ok`. -/
inductive SliderError where
  | invalidState
  deriving DecidableEq, Repr

/-- Construction as seen by the caller: the constructor body, which never
throws. -/
def mkSlider (env : SliderEnv) : Except SliderError (SliderState × List SliderEvent) :=
  .ok (initSlider env)

/-- Source `handleTouchStart`: sets `touchDown = true`, records the sample
as `touchOrigin`, emits `touch {index: active, slides, element}`. -/
def handleTouchStart (env : SliderEnv) (s : SliderState) (sample : Coords) :
    SliderState × List SliderEvent :=
  let s1 := { s with touchDown := true, touchOrigin := sample }
  (s1, [.touch s1.active env.children env.children[s1.active.toNat]?])

/-- Source `handleTouchMove`: returns when `touchDown` is false; otherwise
sets `state.diffX` to the x-component of `diffCoords(touchOrigin, movedTo)`;
returns if that is `0`, else requests the translation
`_translateFromOrigin(active, diffX)`, i.e. `diffX + originForIndex(active)`. -/
def handleTouchMove (env : SliderEnv) (s : SliderState) (movedTo : Coords) :
    SliderState × List SliderEvent :=
  if s.touchDown = false then (s, [])
  else
    let diffX := (diffCoords s.touchOrigin movedTo).x
    let s1 := { s with diffX := diffX }
    if diffX = 0 then (s1, [])
    else ({ s1 with trackX := diffX + originForIndex s1.active env.parentWidth }, [])

/-- Source `handleTouchEnd`: computes `changeWeight = changeSlide(diffX)`,
calls `updateIndex(active + changeWeight)`, requests `_returnToOrigin()`
(translation to `originForIndex(active)` for the possibly-updated active
index), and resets `touchDown = false`, `diffX = 0`.  The deferred CSS class
reapplication is a delegated side effect not modelled here. -/
def handleTouchEnd (env : SliderEnv) (s : SliderState) :
    SliderState × List SliderEvent :=
  let changeWeight := changeSlide s.diffX env.parentWidth env.toleranceFr
  let r := updateIndex env s (s.active + changeWeight)
  let s2 := { r.1 with trackX := originForIndex r.1.active env.parentWidth }
  ({ s2 with touchDown := false, diffX := 0 }, r.2)

/-- One public operation on a constructed slider. -/
inductive Op where
  | touchStart (sample : Coords)
  | touchMove (sample : Coords)
  | touchEnd
  | setIndex (n : ℤ)
  deriving DecidableEq, Repr

/-- Dispatch of one public operation. -/
def step (env : SliderEnv) (s : SliderState) : Op → SliderState × List SliderEvent
  | .touchStart sample => handleTouchStart env s sample
  | .touchMove sample => handleTouchMove env s sample
  | .touchEnd => handleTouchEnd env s
  | .setIndex n => updateIndex env s n

/-- Execution of a sequence of public operations, collecting emitted
events. -/
def run (env : SliderEnv) (s : SliderState) : List Op → SliderState × List SliderEvent
  | [] => (s, [])
  | op :: ops =>
    let r := step env s op
    let r2 := run env r.1 ops
    (r2.1, r.2 ++ r2.2)

/-- A three-slide container, 300 px wide, with the `src/util.js` tolerance. -/
def envThree : SliderEnv := ⟨[10, 20, 30], 300, 33 / 100⟩

/-- A container with zero slides. -/
def envEmpty : SliderEnv := ⟨[], 300, 33 / 100⟩

/-- The spec's activeIndex invariant: `0 ≤ active < slidesCount`. -/
def activeInv (s : SliderState) : Prop :=
  0 ≤ s.active ∧ s.active < (s.slidesCount : ℤ)

/-- The observables the gesture pipeline depends on: everything in the
state except the y-coordinate of the recorded gesture origin. -/
def obsEq (s1 s2 : SliderState) : Prop :=
  s1.touchDown = s2.touchDown ∧ s1.slidesCount = s2.slidesCount ∧
  s1.active = s2.active ∧ s1.diffX = s2.diffX ∧
  s1.touchOrigin.x = s2.touchOrigin.x ∧ s1.trackX = s2.trackX

/-- Agreement of two operations up to sample y-coordinates. -/
def sameOpX : Op → Op → Bool
  | .touchStart a, .touchStart b => a.x == b.x
  | .touchMove a, .touchMove b => a.x == b.x
  | .touchEnd, .touchEnd => true
  | .setIndex n, .setIndex m => n == m
  | _, _ => false

/-- Agreement of two operation sequences up to sample y-coordinates. -/
def sameOpsX : List Op → List Op → Bool
  | [], [] => true
  | o1 :: t1, o2 :: t2 => sameOpX o1 o2 && sameOpsX t1 t2
  | _, _ => false

end VanillaSlider

namespace VanillaSlider

/-- Helper: `handleTouchMove` written as one conditional equation. -/
theorem handleTouchMove_eq (env : SliderEnv) (s : SliderState) (m : Coords) :
    handleTouchMove env s m =
      if s.touchDown = false then (s, [])
      else if (diffCoords s.touchOrigin m).x = 0
        then ({ s with diffX := (diffCoords s.touchOrigin m).x }, [])
        else ({ s with
                diffX := (diffCoords s.touchOrigin m).x,
                trackX := (diffCoords s.touchOrigin m).x +
                  originForIndex s.active env.parentWidth }, []) := rfl

/-- Helper: `handleTouchEnd` written as one conditional equation; the
transition decision either falls out of bounds (snap back only) or
commits. -/
theorem handleTouchEnd_eq (env : SliderEnv) (s : SliderState) :
    handleTouchEnd env s =
      if (s.active + changeSlide s.diffX env.parentWidth env.toleranceFr < 0 ∨
          (s.slidesCount : ℤ) ≤ s.active + changeSlide s.diffX env.parentWidth env.toleranceFr)
      then ({ s with
              trackX := originForIndex s.active env.parentWidth,
              touchDown := false,
              diffX := 0 }, [])
      else ({ s with
              active := s.active + changeSlide s.diffX env.parentWidth env.toleranceFr,
              trackX := originForIndex
                (s.active + changeSlide s.diffX env.parentWidth env.toleranceFr)
                env.parentWidth,
              touchDown := false,
              diffX := 0 },
            [SliderEvent.change
              (s.active + changeSlide s.diffX env.parentWidth env.toleranceFr)
              env.children[(s.active + changeSlide s.diffX env.parentWidth
                env.toleranceFr).toNat]?]) := by
  simp only [handleTouchEnd, updateIndex]
  split <;> rfl

/-- C1: `decideTransition` (`changeSlide`) returns 0 on a zero delta,
returns 0 below the tolerance `w * t`, and otherwise returns `+1` for a
negative delta and `-1` for a positive one, for any tolerance fraction in
`(0, 1]`. -/
theorem changeSlide_decision (d w t : ℚ) (ht0 : 0 < t) (ht1 : t ≤ 1) :
    (d = 0 → changeSlide d w t = 0) ∧
    (|d| < w * t → changeSlide d w t = 0) ∧
    (d ≠ 0 → w * t ≤ |d| →
      ((d < 0 → changeSlide d w t = 1) ∧ (0 < d → changeSlide d w t = -1))) := by
  refine ⟨fun h => by simp [changeSlide, h], fun h => ?_,
    fun hne hge => ⟨fun hneg => ?_, fun hpos => ?_⟩⟩
  · by_cases hd : d = 0
    · simp [changeSlide, hd]
    · simp only [changeSlide, if_neg hd]
      have : ¬ (w * t - |d| ≤ 0) := by linarith
      simp [this]
  · have hov : w * t - |d| ≤ 0 := by linarith
    simp [changeSlide, hne, hov, hneg]
  · have hov : w * t - |d| ≤ 0 := by linarith
    have hnneg : ¬ d < 0 := by linarith
    simp [changeSlide, hne, hov, hnneg]

/-- Witness for C1: at `d = -100`, `w = 300`, `t = 33/100` the tolerance is
`99 ≤ 100` so the decision is `+1`. -/
theorem changeSlide_decision_witness :
    (0 : ℚ) < 33 / 100 ∧ (33 : ℚ) / 100 ≤ 1 ∧ changeSlide (-100) 300 (33 / 100) = 1 := by
  refine ⟨by norm_num, by norm_num, ?_⟩
  exact ((changeSlide_decision (-100) 300 (33 / 100) (by norm_num) (by norm_num)).2.2
    (by norm_num) (by rw [abs_of_nonpos (by norm_num)]; norm_num)).1 (by norm_num)

/-- C8: `restOffset` (`originForIndex`) is `0` at index `0` for every width,
and equals `-n * w` for every `n ≥ 0`, `w ≥ 0`. -/
theorem originForIndex_spec (n : ℤ) (w : ℚ) (hn : 0 ≤ n) (hw : 0 ≤ w) :
    originForIndex 0 w = 0 ∧ originForIndex n w = -(n : ℚ) * w := by
  constructor
  · simp [originForIndex]
  · by_cases h : n = 0
    · simp [originForIndex, h]
    · simp only [originForIndex, if_neg h]
      ring

/-- Witness for C8: `restOffset(2, 300) = -600`. -/
theorem originForIndex_spec_witness :
    (0 : ℤ) ≤ 2 ∧ (0 : ℚ) ≤ 300 ∧ originForIndex 0 300 = 0 ∧
      originForIndex 2 300 = -((2 : ℤ) : ℚ) * 300 :=
  ⟨by norm_num, by norm_num,
    (originForIndex_spec 2 300 (by norm_num) (by norm_num)).1,
    (originForIndex_spec 2 300 (by norm_num) (by norm_num)).2⟩

/-- C9: `coordinateDelta` (`diffCoords`) is antisymmetric, zero on equal
inputs, and a leftward drag (`b.x < a.x`) yields a negative `dx`. -/
theorem diffCoords_spec (a b : Coords) :
    diffCoords a b = ⟨-(diffCoords b a).x, -(diffCoords b a).y⟩ ∧
    diffCoords a a = ⟨0, 0⟩ ∧
    (b.x < a.x → (diffCoords a b).x < 0) := by
  refine ⟨?_, ?_, fun h => ?_⟩
  · simp only [diffCoords]
    congr 1 <;> ring
  · simp only [diffCoords]
    congr 1 <;> ring
  · simp only [diffCoords]
    linarith

/-- Witness for C9: the drag from `(100, 0)` to `(40, 0)` has `dx = -60 < 0`. -/
theorem diffCoords_spec_witness :
    (40 : ℚ) < 100 ∧ (diffCoords ⟨100, 0⟩ ⟨40, 0⟩).x < 0 :=
  ⟨by norm_num, (diffCoords_spec ⟨100, 0⟩ ⟨40, 0⟩).2.2 (by norm_num)⟩

/-- C2: `setActiveIndex` (`updateIndex`) with `0 ≤ n < slidesCount` sets
`active = n` and emits exactly one `change` event carrying `n` and the
element at `n`; with `n` out of range it mutates nothing and emits nothing;
and any public operation that changes `active` emits the corresponding
`change` event (updateIndex being the only mutator of `active`). -/
theorem updateIndex_spec (env : SliderEnv) (s : SliderState) (n : ℤ) (op : Op) :
    (0 ≤ n → n < (s.slidesCount : ℤ) →
      updateIndex env s n =
        ({ s with active := n }, [SliderEvent.change n env.children[n.toNat]?])) ∧
    (n < 0 ∨ (s.slidesCount : ℤ) ≤ n → updateIndex env s n = (s, [])) ∧
    ((step env s op).1.active ≠ s.active →
      SliderEvent.change (step env s op).1.active
        env.children[(step env s op).1.active.toNat]? ∈ (step env s op).2) := by
  refine ⟨fun h0 h1 => ?_, fun h => ?_, fun hch => ?_⟩
  · have : ¬ (n < 0 ∨ (s.slidesCount : ℤ) ≤ n) := by omega
    simp [updateIndex, this]
  · simp [updateIndex, h]
  · cases op with
    | touchStart sample => simp [step, handleTouchStart] at hch
    | touchMove sample =>
      simp only [step, handleTouchMove] at hch ⊢
      split at hch
      · simp at hch
      · split at hch <;> simp at hch
    | touchEnd =>
      by_cases hg : (s.active + changeSlide s.diffX env.parentWidth env.toleranceFr < 0 ∨
          (s.slidesCount : ℤ) ≤ s.active + changeSlide s.diffX env.parentWidth env.toleranceFr)
      · simp [step, handleTouchEnd, updateIndex, hg] at hch
      · simp [step, handleTouchEnd, updateIndex, hg]
    | setIndex m =>
      by_cases hg : (m < 0 ∨ (s.slidesCount : ℤ) ≤ m)
      · simp [step, updateIndex, hg] at hch
      · simp [step, updateIndex, hg]

/-- Witness for C2: on a three-slide slider at index 0, `updateIndex 1`
commits and emits `change {index: 1, element: 20}`; `updateIndex 5` is a
full no-op. -/
theorem updateIndex_spec_witness :
    updateIndex envThree ⟨false, 3, 0, 0, ⟨0, 0⟩, 0⟩ 1 =
      (⟨false, 3, 1, 0, ⟨0, 0⟩, 0⟩, [SliderEvent.change 1 (some 20)]) ∧
    updateIndex envThree ⟨false, 3, 0, 0, ⟨0, 0⟩, 0⟩ 5 =
      (⟨false, 3, 0, 0, ⟨0, 0⟩, 0⟩, []) := by
  constructor
  · have h := (updateIndex_spec envThree ⟨false, 3, 0, 0, ⟨0, 0⟩, 0⟩ 1 Op.touchEnd).1
      (by norm_num) (by norm_num)
    simpa [envThree] using h
  · exact (updateIndex_spec envThree ⟨false, 3, 0, 0, ⟨0, 0⟩, 0⟩ 5 Op.touchEnd).2.1
      (Or.inr (by norm_num))

/-- C5 (amended): construction never fails — the constructor performs no
validation, takes no initial-index parameter, and succeeds even with zero
slides, initialising `active = 0` and `slidesCount` to the child count. -/
theorem mkSlider_never_fails (env : SliderEnv) :
    mkSlider env = Except.ok (initSlider env) ∧
    (∀ e : SliderError, mkSlider env ≠ Except.error e) ∧
    (initSlider env).1.active = 0 ∧
    (initSlider env).1.slidesCount = env.children.length := by
  refine ⟨rfl, fun e => by simp [mkSlider], ?_, ?_⟩
  · simp only [initSlider, updateIndex]
    split <;> simp
  · simp only [initSlider, updateIndex]
    split <;> simp

/-- Counterexample for C5: constructing on a container with zero slides
does not fail with `InvalidState`; it returns a state. -/
theorem mkSlider_zero_slides_counterexample :
    envEmpty.children.length = 0 ∧
    mkSlider envEmpty = Except.ok (initSlider envEmpty) ∧
    mkSlider envEmpty ≠ Except.error SliderError.invalidState :=
  ⟨rfl, rfl, by simp [mkSlider]⟩

theorem updateIndex_activeInv (env : SliderEnv) (s : SliderState) (n : ℤ)
    (h : activeInv s) : activeInv (updateIndex env s n).1 := by
  by_cases hg : (n < 0 ∨ (s.slidesCount : ℤ) ≤ n)
  · simpa [updateIndex, hg] using h
  · simp only [updateIndex, if_neg hg, activeInv]
    show 0 ≤ n ∧ n < (s.slidesCount : ℤ)
    omega

theorem handleTouchEnd_activeInv (env : SliderEnv) (s : SliderState)
    (h : activeInv s) : activeInv (handleTouchEnd env s).1 := by
  have := updateIndex_activeInv env s
    (s.active + changeSlide s.diffX env.parentWidth env.toleranceFr) h
  simpa [handleTouchEnd, activeInv] using this

theorem step_activeInv (env : SliderEnv) (s : SliderState) (op : Op)
    (h : activeInv s) : activeInv (step env s op).1 := by
  cases op with
  | touchStart sample => simpa [step, handleTouchStart, activeInv] using h
  | touchMove sample =>
    simp only [step, handleTouchMove]
    split
    · exact h
    · split <;> simpa [activeInv] using h
  | touchEnd => exact handleTouchEnd_activeInv env s h
  | setIndex n => exact updateIndex_activeInv env s n h

theorem run_activeInv (env : SliderEnv) (s : SliderState) (ops : List Op)
    (h : activeInv s) : activeInv (run env s ops).1 := by
  induction ops generalizing s with
  | nil => exact h
  | cons op ops ih => exact ih _ (step_activeInv env s op h)

/-- C3 (amended): on a container with at least one slide, every slider
instance satisfies `0 ≤ activeIndex < slideCount` right after construction
and after every sequence of public operations. -/
theorem activeIndex_invariant (env : SliderEnv) (ops : List Op)
    (h : 1 ≤ env.children.length) :
    activeInv (initSlider env).1 ∧
    activeInv (run env (initSlider env).1 ops).1 := by
  have hinit : activeInv (initSlider env).1 := by
    have hlen : (0 : ℤ) < (env.children.length : ℤ) := by omega
    simp only [initSlider, updateIndex, activeInv]
    split <;> exact ⟨le_refl 0, hlen⟩
  exact ⟨hinit, run_activeInv env _ ops hinit⟩

/-- Witness for C3: the three-slide slider keeps the invariant through a
`touchEnd`. -/
theorem activeIndex_invariant_witness :
    activeInv (initSlider envThree).1 ∧
    activeInv (run envThree (initSlider envThree).1 [Op.touchEnd]).1 :=
  activeIndex_invariant envThree [Op.touchEnd] (by norm_num [envThree])

/-- Counterexample for C3: a slider constructed on a container with zero
slides violates the invariant (`activeIndex = 0`, `slideCount = 0`). -/
theorem activeIndex_invariant_counterexample :
    ¬ activeInv (run envEmpty (initSlider envEmpty).1 []).1 := by
  norm_num [activeInv, run, initSlider, updateIndex, envEmpty]

/-- C4 (amended): a second `endGesture` with no intervening `beginGesture`
leaves `activeIndex` unchanged (the drag offset is `0`, so the decision is
`0`), but it does emit one `change` notification carrying the unchanged
index: the in-range `updateIndex` call emits even when the index value does
not change. -/
theorem endGesture_twice (env : SliderEnv) (s : SliderState)
    (h0 : 0 ≤ s.active) (h1 : s.active < (s.slidesCount : ℤ)) :
    (handleTouchEnd env (handleTouchEnd env s).1).1.active =
      (handleTouchEnd env s).1.active ∧
    (handleTouchEnd env (handleTouchEnd env s).1).2 =
      [SliderEvent.change (handleTouchEnd env s).1.active
        env.children[(handleTouchEnd env s).1.active.toNat]?] := by
  have hinv : activeInv (handleTouchEnd env s).1 :=
    handleTouchEnd_activeInv env s ⟨h0, h1⟩
  set s1 := (handleTouchEnd env s).1 with hs1
  have hdiff : s1.diffX = 0 := by simp [hs1, handleTouchEnd]
  have hw : changeSlide s1.diffX env.parentWidth env.toleranceFr = 0 := by
    rw [hdiff]; simp [changeSlide]
  have hguard : ¬ (s1.active < 0 ∨ (s1.slidesCount : ℤ) ≤ s1.active) := by
    rcases hinv with ⟨a, b⟩
    omega
  constructor <;> simp [handleTouchEnd, updateIndex, hw, hguard]

/-- Witness for C4 (amended): concrete three-slide slider at index 0. -/
theorem endGesture_twice_witness :
    (handleTouchEnd envThree (handleTouchEnd envThree ⟨false, 3, 0, 0, ⟨0, 0⟩, 0⟩).1).1.active =
      (handleTouchEnd envThree ⟨false, 3, 0, 0, ⟨0, 0⟩, 0⟩).1.active ∧
    (handleTouchEnd envThree (handleTouchEnd envThree ⟨false, 3, 0, 0, ⟨0, 0⟩, 0⟩).1).2 =
      [SliderEvent.change (handleTouchEnd envThree ⟨false, 3, 0, 0, ⟨0, 0⟩, 0⟩).1.active
        envThree.children[(handleTouchEnd envThree
          ⟨false, 3, 0, 0, ⟨0, 0⟩, 0⟩).1.active.toNat]?] :=
  endGesture_twice envThree ⟨false, 3, 0, 0, ⟨0, 0⟩, 0⟩ (by norm_num) (by norm_num)

/-- Counterexample for C4 as stated: on the constructed three-slide slider,
the second consecutive `endGesture` emits a `change` notification. -/
theorem endGesture_second_emit_counterexample :
    (handleTouchEnd envThree (handleTouchEnd envThree (initSlider envThree).1).1).2 =
      [SliderEvent.change 0 (some 10)] ∧
    (handleTouchEnd envThree (handleTouchEnd envThree (initSlider envThree).1).1).2 ≠ [] := by
  constructor <;>
    norm_num [handleTouchEnd, updateIndex, changeSlide, initSlider, envThree, originForIndex]

/-- C6: an `endGesture` whose transition decision would leave the bounds
keeps `activeIndex`, emits nothing, still snaps the track to
`restOffset(activeIndex, trackWidth)`, and still resets the transient state
(`dragOffset = 0`, `gestureActive = false`). -/
theorem endGesture_out_of_bounds (env : SliderEnv) (s : SliderState)
    (h : s.active + changeSlide s.diffX env.parentWidth env.toleranceFr < 0 ∨
         (s.slidesCount : ℤ) ≤ s.active + changeSlide s.diffX env.parentWidth env.toleranceFr) :
    handleTouchEnd env s =
      ({ s with
          trackX := originForIndex s.active env.parentWidth,
          touchDown := false,
          diffX := 0 }, []) := by
  simp [handleTouchEnd, updateIndex, h]

/-- Witness for C6: at the last of three slides, a committed advance
decision (`+1` from a −150 px drag on a 300 px track) is discarded; the
state only snaps back and resets. -/
theorem endGesture_out_of_bounds_witness :
    handleTouchEnd envThree ⟨false, 3, 2, -150, ⟨0, 0⟩, -600⟩ =
      (⟨false, 3, 2, 0, ⟨0, 0⟩, -600⟩, []) := by
  have h := endGesture_out_of_bounds envThree ⟨false, 3, 2, -150, ⟨0, 0⟩, -600⟩
    (Or.inr (by norm_num [changeSlide, envThree]))
  norm_num [envThree, originForIndex] at h
  exact h

/-- C7: `updateGesture` (`handleTouchMove`) is a no-op while no gesture is
active; otherwise it sets `dragOffset` to the x-component of
`coordinateDelta(origin, sample)`, emits nothing, and for a nonzero `dx`
requests the track translation `restOffset(activeIndex, trackWidth) + dx`;
concretely, `beginGesture (100,0)` then `updateGesture (40,0)` on the
three-slide 300 px slider gives `dragOffset = -60`, and `endGesture`
(tolerance 0.33) leaves `activeIndex = 0` with the track at offset 0. -/
theorem handleTouchMove_spec :
    (∀ (env : SliderEnv) (s : SliderState) (m : Coords),
      s.touchDown = false → handleTouchMove env s m = (s, [])) ∧
    (∀ (env : SliderEnv) (s : SliderState) (m : Coords),
      s.touchDown = true →
        (handleTouchMove env s m).1.diffX = (diffCoords s.touchOrigin m).x ∧
        (handleTouchMove env s m).2 = [] ∧
        ((diffCoords s.touchOrigin m).x ≠ 0 →
          (handleTouchMove env s m).1.trackX =
            originForIndex s.active env.parentWidth + (diffCoords s.touchOrigin m).x)) ∧
    ((handleTouchMove envThree
        (handleTouchStart envThree (initSlider envThree).1 ⟨100, 0⟩).1 ⟨40, 0⟩).1.diffX = -60 ∧
      (handleTouchEnd envThree
        (handleTouchMove envThree
          (handleTouchStart envThree (initSlider envThree).1 ⟨100, 0⟩).1 ⟨40, 0⟩).1).1.active = 0 ∧
      (handleTouchEnd envThree
        (handleTouchMove envThree
          (handleTouchStart envThree (initSlider envThree).1 ⟨100, 0⟩).1 ⟨40, 0⟩).1).1.trackX = 0) := by
  refine ⟨fun env s m h => by simp [handleTouchMove, h], fun env s m h => ?_, ?_⟩
  · have hne : ¬ s.touchDown = false := by simp [h]
    rw [handleTouchMove_eq, if_neg hne]
    refine ⟨?_, ?_, fun hd => ?_⟩
    · split <;> rfl
    · split <;> rfl
    · rw [if_neg hd]
      show (diffCoords s.touchOrigin m).x + originForIndex s.active env.parentWidth =
        originForIndex s.active env.parentWidth + (diffCoords s.touchOrigin m).x
      exact add_comm _ _
  · refine ⟨?_, ?_, ?_⟩ <;>
      norm_num [handleTouchMove, handleTouchStart, handleTouchEnd, initSlider,
        updateIndex, changeSlide, diffCoords, originForIndex, envThree]

/-- Witness for C7: the no-op and active branches at concrete inputs. -/
theorem handleTouchMove_spec_witness :
    handleTouchMove envThree ⟨false, 3, 0, 0, ⟨0, 0⟩, 0⟩ ⟨40, 0⟩ =
      (⟨false, 3, 0, 0, ⟨0, 0⟩, 0⟩, []) ∧
    (handleTouchMove envThree ⟨true, 3, 0, 0, ⟨100, 0⟩, 0⟩ ⟨40, 0⟩).1.diffX =
      (diffCoords ⟨100, 0⟩ ⟨40, 0⟩).x :=
  ⟨handleTouchMove_spec.1 envThree ⟨false, 3, 0, 0, ⟨0, 0⟩, 0⟩ ⟨40, 0⟩ rfl,
    (handleTouchMove_spec.2.1 envThree ⟨true, 3, 0, 0, ⟨100, 0⟩, 0⟩ ⟨40, 0⟩ rfl).1⟩

theorem step_obsEq (env : SliderEnv) (s1 s2 : SliderState) (o1 o2 : Op)
    (hs : obsEq s1 s2) (ho : sameOpX o1 o2 = true) :
    obsEq (step env s1 o1).1 (step env s2 o2).1 ∧
    (step env s1 o1).2 = (step env s2 o2).2 := by
  obtain ⟨htd, hsc, hac, hdx, hox, htr⟩ := hs
  cases o1 <;> cases o2 <;> simp [sameOpX] at ho
  case touchStart.touchStart a b =>
    refine ⟨⟨rfl, hsc, hac, hdx, ho, htr⟩, ?_⟩
    simp [step, handleTouchStart, hac]
  case touchMove.touchMove a b =>
    have hdeq : (diffCoords s1.touchOrigin a).x = (diffCoords s2.touchOrigin b).x := by
      simp [diffCoords, hox, ho]
    simp only [step]
    rw [handleTouchMove_eq, handleTouchMove_eq, htd, hdeq, hac]
    split
    · exact ⟨⟨htd, hsc, hac, hdx, hox, htr⟩, rfl⟩
    · split <;>
        refine ⟨⟨?_, ?_, ?_, ?_, ?_, ?_⟩, rfl⟩ <;>
          first | rfl | exact hsc | exact hox | exact htr
  case touchEnd.touchEnd =>
    simp only [step]
    rw [handleTouchEnd_eq, handleTouchEnd_eq, hdx, hac, hsc]
    split <;>
      refine ⟨⟨?_, ?_, ?_, ?_, ?_, ?_⟩, rfl⟩ <;>
        first | rfl | exact hsc | exact hox | exact htr
  case setIndex.setIndex n m =>
    subst ho
    simp only [step, updateIndex, hsc]
    split
    · exact ⟨⟨htd, hsc, hac, hdx, hox, htr⟩, rfl⟩
    · refine ⟨⟨?_, ?_, ?_, ?_, ?_, ?_⟩, rfl⟩ <;>
        first | rfl | exact htd | exact hsc | exact hdx | exact hox | exact htr

theorem run_obsEq (env : SliderEnv) (s1 s2 : SliderState) (ops1 ops2 : List Op)
    (hs : obsEq s1 s2) (ho : sameOpsX ops1 ops2 = true) :
    obsEq (run env s1 ops1).1 (run env s2 ops2).1 ∧
    (run env s1 ops1).2 = (run env s2 ops2).2 := by
  induction ops1 generalizing s1 s2 ops2 with
  | nil =>
    cases ops2 with
    | nil => exact ⟨hs, rfl⟩
    | cons o t => simp [sameOpsX] at ho
  | cons o1 t1 ih =>
    cases ops2 with
    | nil => simp [sameOpsX] at ho
    | cons o2 t2 =>
      simp only [sameOpsX, Bool.and_eq_true] at ho
      obtain ⟨ho1, ho2⟩ := ho
      have h1 := step_obsEq env s1 s2 o1 o2 hs ho1
      have h2 := ih _ _ _ h1.1 ho2
      simp only [run]
      exact ⟨h2.1, by rw [h1.2, h2.2]⟩

/-- C10: y-coordinates of gesture samples never affect the outcome: two
runs whose operation streams agree on all x-coordinates (from states that
agree except on the recorded origin's y) produce identical `dragOffset`,
identical transition decisions, identical `activeIndex`, identical
requested track translations, and identical emitted events. -/
theorem gesture_y_independent (env : SliderEnv) (s1 s2 : SliderState)
    (ops1 ops2 : List Op) (hs : obsEq s1 s2) (ho : sameOpsX ops1 ops2 = true) :
    (run env s1 ops1).1.diffX = (run env s2 ops2).1.diffX ∧
    changeSlide (run env s1 ops1).1.diffX env.parentWidth env.toleranceFr =
      changeSlide (run env s2 ops2).1.diffX env.parentWidth env.toleranceFr ∧
    (run env s1 ops1).1.active = (run env s2 ops2).1.active ∧
    (run env s1 ops1).1.trackX = (run env s2 ops2).1.trackX ∧
    (run env s1 ops1).2 = (run env s2 ops2).2 := by
  obtain ⟨⟨_, _, hac, hdx, _, htr⟩, hev⟩ := run_obsEq env s1 s2 ops1 ops2 hs ho
  exact ⟨hdx, by rw [hdx], hac, htr, hev⟩

/-- Witness for C10: two concrete gestures differing only in sample
y-coordinates give the same observables. -/
theorem gesture_y_independent_witness :
    (run envThree (initSlider envThree).1
        [Op.touchStart ⟨100, 0⟩, Op.touchMove ⟨40, 5⟩, Op.touchEnd]).1.diffX =
      (run envThree (initSlider envThree).1
        [Op.touchStart ⟨100, 7⟩, Op.touchMove ⟨40, -3⟩, Op.touchEnd]).1.diffX ∧
    changeSlide (run envThree (initSlider envThree).1
        [Op.touchStart ⟨100, 0⟩, Op.touchMove ⟨40, 5⟩, Op.touchEnd]).1.diffX
        envThree.parentWidth envThree.toleranceFr =
      changeSlide (run envThree (initSlider envThree).1
        [Op.touchStart ⟨100, 7⟩, Op.touchMove ⟨40, -3⟩, Op.touchEnd]).1.diffX
        envThree.parentWidth envThree.toleranceFr ∧
    (run envThree (initSlider envThree).1
        [Op.touchStart ⟨100, 0⟩, Op.touchMove ⟨40, 5⟩, Op.touchEnd]).1.active =
      (run envThree (initSlider envThree).1
        [Op.touchStart ⟨100, 7⟩, Op.touchMove ⟨40, -3⟩, Op.touchEnd]).1.active ∧
    (run envThree (initSlider envThree).1
        [Op.touchStart ⟨100, 0⟩, Op.touchMove ⟨40, 5⟩, Op.touchEnd]).1.trackX =
      (run envThree (initSlider envThree).1
        [Op.touchStart ⟨100, 7⟩, Op.touchMove ⟨40, -3⟩, Op.touchEnd]).1.trackX ∧
    (run envThree (initSlider envThree).1
        [Op.touchStart ⟨100, 0⟩, Op.touchMove ⟨40, 5⟩, Op.touchEnd]).2 =
      (run envThree (initSlider envThree).1
        [Op.touchStart ⟨100, 7⟩, Op.touchMove ⟨40, -3⟩, Op.touchEnd]).2 :=
  gesture_y_independent envThree (initSlider envThree).1 (initSlider envThree).1
    [Op.touchStart ⟨100, 0⟩, Op.touchMove ⟨40, 5⟩, Op.touchEnd]
    [Op.touchStart ⟨100, 7⟩, Op.touchMove ⟨40, -3⟩, Op.touchEnd]
    ⟨rfl, rfl, rfl, rfl, rfl, rfl⟩ (by simp [sameOpsX, sameOpX])

end VanillaSlider
